import Mathlib

/-!
Verification development for the ObservingDescriptionLanguage repository
(keckODL).  The Python modules `target.py`, `keckODL/instrument_config.py`
and `keckODL/mosfire.py` are shallowly embedded below: numbers are modelled
as rationals, Python `None` as `Option.none`, raised exceptions as `Except`
errors.  External collaborators (astropy's coordinate/time library, yaml,
the sequence/offset primitives, `IRDetectorConfig`) are not part of the
repository; per the spec (sections 1 and 6) they are modelled from the
spec's words at their interface boundary, each such definition marked by a
doc comment starting with "Modelled from the spec".
-/

namespace ODL

/-- Python runtime exceptions that the embedded keckODL code can surface.
`valueError`, `nameError` and `attributeError` are Python builtins;
`detectorConfigError` stands for the intended domain error class
`DetectorConfigError` (defined in the external `detector_config` module,
but NOT imported into `mosfire.py`, so a `raise DetectorConfigError(...)`
there actually raises `NameError`). -/
inductive PyError where
  | valueError (msg : String)
  | nameError (missingName : String)
  | attributeError (msg : String)
  | detectorConfigError (msg : String)
  deriving DecidableEq

instance {ε α : Type} [DecidableEq ε] [DecidableEq α] :
    DecidableEq (Except ε α) := fun x y =>
  match x, y with
  | .ok a, .ok b =>
    if h : a = b then .isTrue (congrArg Except.ok h)
    else .isFalse fun he => h (Except.ok.inj he)
  | .error e, .error f =>
    if h : e = f then .isTrue (congrArg Except.error h)
    else .isFalse fun he => h (Except.error.inj he)
  | .ok _, .error _ => .isFalse fun he => Except.noConfusion he
  | .error _, .ok _ => .isFalse fun he => Except.noConfusion he

/-! ## External sequence/offset primitives (spec section 3 and 6) -/

/-- Modelled from the spec: an `OffsetPattern` (external `offset` module,
not in the repository files) is "a named, ordered list of TelescopeOffset
points"; the core only stores and appends patterns, never inspects the
points, so the point list is abstracted to its length-irrelevant name. -/
structure OffsetPattern where
  patname : String
  deriving DecidableEq

/-- Modelled from the spec: the `Stare` offset pattern from the external
`offset` module, used by `MOSFIREConfig.cals`. -/
def Stare : OffsetPattern := { patname := "Stare" }

/-! ## MOSFIREDetectorConfig (mosfire.py lines 33-59) -/

/-- Detector configuration state.  Modelled from the spec for the external
base class `IRDetectorConfig` (not in the repository files): it stores
"exposure/readout parameters (exptime, readoutmode, coadds)" plus the
instrument name passed by `MOSFIREDetectorConfig.__init__`. -/
structure MOSFIREDetectorConfig where
  instrument : String
  exptime : Option ℚ
  readoutmode : String
  coadds : ℕ
  deriving DecidableEq

/-- Embeds `MOSFIREDetectorConfig.__init__` (mosfire.py lines 36-38). -/
def MOSFIREDetectorConfig.init (exptime : Option ℚ) (readoutmode : String)
    (coadds : ℕ) : MOSFIREDetectorConfig :=
  { instrument := "MOSFIRE", exptime := exptime, readoutmode := readoutmode,
    coadds := coadds }

/-- Embeds Python `re.match('(M?)CDS(\x5cd*)', s)` (mosfire.py line 51),
returning group 2 (the digit run) when the anchored-at-start pattern
matches.  `re.match` anchors at the start only and does not require the
whole string to be consumed; `M?` is greedy, so a string starting with
"MCDS" matches with the `M` consumed, a string starting with "CDS" matches
without it, and `(\x5cd*)` then takes the longest (possibly empty) digit
run. -/
def readoutmodeMatchGroup2 (s : String) : Option String :=
  let cs := s.toList
  if cs.take 4 = "MCDS".toList then
    some (String.mk ((cs.drop 4).takeWhile Char.isDigit))
  else if cs.take 3 = "CDS".toList then
    some (String.mk ((cs.drop 3).takeWhile Char.isDigit))
  else none

/-- Python `int(s)` for a string `s` that is a (possibly empty) run of
digits, as regex group 2 of line 51 always is: `ValueError` (`none`) on
the empty string, the decimal value otherwise. -/
def pyIntOfDigits (s : String) : Option ℕ :=
  match s.toList with
  | [] => none
  | ds => some (ds.foldl (fun a c => a * 10 + (c.toNat - 48)) 0)

/-- Embeds `MOSFIREDetectorConfig.validate` (mosfire.py lines 43-59).
Python behaviour traced faithfully:
* no match: the code executes `raise DetectorConfigError(...)`, but the
  name `DetectorConfigError` is never imported in `mosfire.py`, so the
  lookup itself fails with `NameError`;
* a match with an empty group 2 (e.g. readoutmode `CDS`): `int('')` on
  line 56 raises `ValueError`;
* `nreads > 32`: again `raise DetectorConfigError(...)` becomes
  `NameError`;
* otherwise the method returns normally. -/
def MOSFIREDetectorConfig.validate (self : MOSFIREDetectorConfig) :
    Except PyError Unit :=
  match readoutmodeMatchGroup2 self.readoutmode with
  | none => .error (.nameError "DetectorConfigError")
  | some g2 =>
    match pyIntOfDigits g2 with
    | none => .error (.valueError "invalid literal for int() with base 10")
    | some nreads =>
      if nreads > 32 then .error (.nameError "DetectorConfigError")
      else .ok ()

/-! ## InstrumentConfig (instrument_config.py lines 19-29) -/

def isWordChar (ch : Char) : Bool := ch.isAlphanum || ch = '_'

/-- All ways a greedy-with-backtracking `\x5cw+` can split `cs` into a
nonempty word-character group and the rest, longest group first (Python's
backtracking order). -/
def wordSplits (cs : List Char) : List (List Char × List Char) :=
  let w := cs.takeWhile isWordChar
  let r := cs.drop w.length
  (List.range w.length).map fun k =>
    (w.take (w.length - k), w.drop (w.length - k) ++ r)

/-- Matcher for the tail `.(\x5cw+).config.(\x5cw+)Config'>` of the class
regex of instrument_config.py line 26 (each unescaped `.` matches any one
character), applied right after the literal part; returns the two captured
groups. -/
def classPatternTail (cs : List Char) : Option (String × String) :=
  match cs with
  | [] => none
  | _ :: rest1 =>
    (wordSplits rest1).findSome? fun (w1, rest2) =>
      match rest2 with
      | [] => none
      | _ :: rest3 =>
        if rest3.take 6 = "config".toList then
          match rest3.drop 6 with
          | [] => none
          | _ :: rest4 =>
            (wordSplits rest4).findSome? fun (w2, rest5) =>
              if rest5.take 8 = "Config'>".toList then
                some (String.mk w1, String.mk w2)
              else none
        else none

/-- Scans every start position, as `re.search` does, for the literal head
"<class 'keckODL" followed by the tail pattern. -/
def classPatternSearchAux : List Char → Option (String × String)
  | [] => none
  | c :: cs =>
    (if (c :: cs).take 15 = "<class 'keckODL".toList then
      classPatternTail ((c :: cs).drop 15)
    else none).orElse fun _ => classPatternSearchAux cs

/-- Embeds `re.search("<class 'keckODL.(\x5cw+).config.(\x5cw+)Config'>", s)`
from instrument_config.py lines 26-27, returning the two groups. -/
def classPatternSearch (s : String) : Option (String × String) :=
  classPatternSearchAux s.toList

/-- The state written by `InstrumentConfig.__init__`. -/
structure InstrumentConfigBase where
  name : String
  package : String
  instrument : String
  deriving DecidableEq

/-- Embeds `InstrumentConfig.__init__` (instrument_config.py lines 22-29):
`classStr` is Python's `str(self.__class__)` for the concrete type being
constructed.  When the class-name regex finds no match, `namesearch` is
`None` and `namesearch.group(1)` raises `AttributeError`. -/
def InstrumentConfig.init (classStr : String) (name : String) :
    Except PyError InstrumentConfigBase :=
  match classPatternSearch classStr with
  | none => .error (.attributeError "NoneType object has no attribute group")
  | some (p, i) => .ok { name := name, package := p, instrument := i }

/-- Python `str(MOSFIREConfig)`: the class lives in module
`keckODL.mosfire` (file keckODL/mosfire.py). -/
def mosfireClassStr : String := "<class 'keckODL.mosfire.MOSFIREConfig'>"

/-- Python `str(InstrumentConfig)`: the base class lives in module
`keckODL.instrument_config`. -/
def instrumentConfigClassStr : String :=
  "<class 'keckODL.instrument_config.InstrumentConfig'>"

/-! ## MOSFIREConfig (mosfire.py lines 65-147) -/

/-- MOSFIRE instrument-configuration state (fields written by
`MOSFIREConfig.__init__`, mosfire.py lines 68-80). -/
structure MOSFIREConfig where
  name : String
  package : String
  instrument : String
  mode : String
  filter : String
  mask : String
  arclamp : Option String
  domeflatlamp : Option Bool
  deriving DecidableEq

/-- Embeds `MOSFIREConfig.__init__` (mosfire.py lines 68-80): first
`super().__init__()` runs (which can raise, see `InstrumentConfig.init`),
then the MOSFIRE fields are assigned; the two trailing `if` statements are
dead at construction because `arclamp` and `domeflatlamp` have just been
set to `None`. -/
def MOSFIREConfig.init (mode filter mask : String) :
    Except PyError MOSFIREConfig :=
  match InstrumentConfig.init mosfireClassStr "GenericInstrumentConfig" with
  | .error e => .error e
  | .ok base =>
    .ok { name := mask ++ " " ++ filter ++ "-" ++ mode,
          package := base.package,
          instrument := "MOSFIRE",
          mode := mode, filter := filter, mask := mask,
          arclamp := none, domeflatlamp := none }

/-- Python `copy.deepcopy` on a configuration: an independent,
structurally equal copy; in this value model it is the identity. -/
def deepcopy (c : MOSFIREConfig) : MOSFIREConfig := c

/-- Python `str()` of a bool, as interpolated by an f-string. -/
def pyBoolStr (b : Bool) : String := if b then "True" else "False"

/-- Embeds `MOSFIREConfig.arcs` (mosfire.py lines 105-111).  The method
deep-copies the receiver and mutates only the copy; the returned pair is
(receiver state after the call, returned object). -/
def MOSFIREConfig.arcs (self : MOSFIREConfig) (lampname : String) :
    MOSFIREConfig × MOSFIREConfig :=
  let arcs0 := deepcopy self
  let arcs1 := { arcs0 with arclamp := some lampname }
  let arcs2 := { arcs1 with name := arcs1.name ++ " arclamp=" ++ lampname }
  (self, arcs2)

/-- Embeds `MOSFIREConfig.domeflats` (mosfire.py lines 114-120): the copy
gets `domeflatlamp = not off` and the f-string renders the bool as
"True"/"False"; the returned pair is (receiver state after the call,
returned object). -/
def MOSFIREConfig.domeflats (self : MOSFIREConfig) (off : Bool) :
    MOSFIREConfig × MOSFIREConfig :=
  let d0 := deepcopy self
  let d1 := { d0 with domeflatlamp := some (!off) }
  let d2 := { d1 with name := d1.name ++ " domeflatlamp=" ++ pyBoolStr (!off) }
  (self, d2)

/-- Modelled from the spec: a `SequenceElement` (external `sequence`
module, not in the repository files) pairs "an OffsetPattern, a detector
configuration, an instrument configuration, and a repeat count". -/
structure SequenceElement where
  pattern : OffsetPattern
  detconfig : MOSFIREDetectorConfig
  instconfig : MOSFIREConfig
  repeats : ℕ
  deriving DecidableEq

/-- Modelled from the spec: a `Sequence` (external `sequence` module) is
an ordered, appendable list of `SequenceElement`. -/
def Sequence := List SequenceElement

/-- Embeds `MOSFIREConfig.cals` (mosfire.py lines 123-147): one dome-flat
element always, plus dome-flat-off and two arc elements only for the K
filter. -/
def MOSFIREConfig.cals (self : MOSFIREConfig) : List SequenceElement :=
  let mosfire_1s := MOSFIREDetectorConfig.init (some 1) "CDS" 1
  let mosfire_11s := MOSFIREDetectorConfig.init (some 11) "CDS" 1
  let cals : List SequenceElement :=
    [ { pattern := Stare, detconfig := mosfire_11s,
        instconfig := (self.domeflats false).2, repeats := 7 } ]
  if self.filter = "K" then
    cals ++
      [ { pattern := Stare, detconfig := mosfire_11s,
          instconfig := (self.domeflats true).2, repeats := 7 },
        { pattern := Stare, detconfig := mosfire_1s,
          instconfig := (self.arcs "Ne").2, repeats := 2 },
        { pattern := Stare, detconfig := mosfire_1s,
          instconfig := (self.arcs "Ar").2, repeats := 2 } ]
  else cals

/-! ## Target (target.py)

Numbers (RA/Dec degrees, PA, proper motions, decimal years) are modelled
as rationals.  Astropy `Time` values are modelled as exact decimal years:
`Time(x, format='decimalyear')` is `x`, `Time.now()` is an explicit `now`
parameter threaded through the functions that call it, and the year
conversions used by `to_dict` (`.byear`) are treated as exact on decimal
years, per the spec (section 6), which specifies the coordinate/time
library only at its interface boundary. -/

/-- A Python value that is either a number or a string (the accepted types
of the `RA`/`Dec` constructor arguments). -/
inductive NumOrStr where
  | num (q : ℚ)
  | str (s : String)
  deriving DecidableEq

/-- Embeds the `TargetError` values raised by `Target.validate`
(target.py lines 221-256), one constructor per raise site, carrying the
data the message interpolates. -/
inductive TargetErr where
  | nameRequired
  | raRequired
  | decRequired
  | equinoxRequired
  | invalidRotmode (v : String)
  | paOutOfRange (pa lo hi : ℚ)
  | invalidAcquisition (v : String)
  | invalidObjecttype (v : String)
  deriving DecidableEq

/-- target.py lines 14-16. -/
def rotator_modes : List String := ["pa", "stationary", "vertical"]

/-- target.py lines 17-21. -/
def acquisition_modes : List String :=
  ["guider: bright", "guider: faint", "guider: offset", "mask align", "blind"]

/-- target.py lines 22-26. -/
def object_types : List String :=
  ["science", "sky", "flux standard", "telluric standard", "custom"]

/-- target.py lines 27-30: the per-mode PA range table; `.get` on a key
that is not in the dict returns `None`. -/
def valid_PAs (mode : String) : Option (ℚ × ℚ) :=
  if mode = "pa" ∨ mode = "stationary" ∨ mode = "vertical" then some (0, 360)
  else none

/-- Python `str.lower()` on the ASCII mode strings compared by
`Target.validate` (character-by-character lowercasing). -/
def pyLower (s : String) : String := String.mk (s.toList.map Char.toLower)

/-- The state of a `Target` object: the attributes assigned by
`Target.__init__` (target.py lines 156-199); `None` is `Option.none`. -/
structure Target where
  name : Option String
  RA : Option NumOrStr
  Dec : Option NumOrStr
  equinox : Option ℚ
  frame : Option String
  rotmode : Option String
  PA : Option ℚ
  RAOffset : Option ℚ
  DecOffset : Option ℚ
  objecttype : Option String
  acquisition : Option String
  PMRA : ℚ
  PMDec : ℚ
  epoch : Option ℚ
  obstime : Option ℚ
  mag : List (String × Option ℚ)
  comment : Option String
  deriving DecidableEq

/-- Embeds `Target.validate` (target.py lines 205-256), returning the
validated (default-filled) state and the list of warnings emitted, or the
`TargetError` raised.  Python mutates `self` field by field before a later
raise can happen; a raise abandons the object, so only the success state
is returned.  The dead `none` branch of the `valid_PAs` lookup is
unreachable: the rotator mode was checked two lines above. -/
def Target.validate (t : Target) : Except TargetErr (Target × List String) :=
  if t.name = none then .error .nameRequired
  else if t.RA = none then .error .raRequired
  else if t.Dec = none then .error .decRequired
  else if t.equinox = none then .error .equinoxRequired
  else
    let rm := t.rotmode.getD "PA"
    let w1 : List String :=
      if t.rotmode = none then ["No rotator mode given, assuming PA mode"]
      else []
    if pyLower rm ∉ rotator_modes then .error (.invalidRotmode rm)
    else
      let pa := t.PA.getD 0
      let w2 : List String :=
        if t.PA = none then ["No PA given, assuming 0 deg"] else []
      match valid_PAs (pyLower rm) with
      | none => .error (.invalidRotmode rm)
      | some (lo, hi) =>
        if pa < lo ∨ pa > hi then .error (.paOutOfRange pa lo hi)
        else
          let acq := t.acquisition.getD "guider: bright"
          let w3 : List String :=
            if t.acquisition = none then
              ["No acquisition mode given, assuming \"guider: bright\""]
            else []
          if pyLower acq ∉ acquisition_modes then
            .error (.invalidAcquisition acq)
          else
            let ot := t.objecttype.getD "science"
            let w4 : List String :=
              if t.objecttype = none then
                ["No object type given, assuming \"science\""]
              else []
            if pyLower ot ∉ object_types then .error (.invalidObjecttype ot)
            else
              .ok ({ t with
                      rotmode := some rm
                      PA := some pa
                      acquisition := some acq
                      objecttype := some ot },
                   w1 ++ w2 ++ w3 ++ w4)

/-- Modelled from the spec: the external name resolver (section 6) maps a
name to (RA, Dec, frame).  The claims below never take the
name-resolution branch of `__init__`, so the concrete values are
immaterial; icrs keeps the branch total. -/
def resolveName (_n : String) : ℚ × ℚ × String := (0, 0, "icrs")

/-- Decimal value of the digit characters of `s` (helper for the modelled
sexagesimal parser). -/
def digitsVal (s : String) : ℚ :=
  ((s.toList.filter Char.isDigit).foldl (fun a c => a * 10 + (c.toNat - 48)) 0 : ℕ)

/-- Sexagesimal components of a colon- or space-separated field. -/
def sexaFields (s : String) : List ℚ :=
  ((s.split fun c => c = ':' || c = ' ').filter (· ≠ "")).map digitsVal

/-- Combination of up to three sexagesimal components. -/
def sexaCombine : List ℚ → ℚ
  | [a, b, c] => a + b / 60 + c / 3600
  | [a, b] => a + b / 60
  | [a] => a
  | _ => 0

/-- Modelled from the spec: astropy's sexagesimal parsing (section 6) of
`SkyCoord(f'RA Dec', unit=(hourangle, deg))` — hours/minutes/seconds
scaled by 15 into degrees for RA, signed degrees/arcminutes/arcseconds
for Dec (integer components; the claims never depend on parsed values). -/
def parseSexagesimal (ra dec : String) : ℚ × ℚ :=
  let raDeg := 15 * sexaCombine (sexaFields ra)
  let sign : ℚ := if dec.startsWith "-" then -1 else 1
  (raDeg, sign * sexaCombine (sexaFields dec))

/-- Embeds `Target.from_name` (target.py lines 299-308): the resolver
supplies name, RA, Dec and frame; equinox is set only for icrs (for any
other frame the attribute would be left unset, which the model reads as
`none`; dead with the modelled resolver). -/
def Target.from_name (t : Target) (n : String) : Target :=
  let r := resolveName n
  { t with
      name := some n
      RA := some (.num r.1)
      Dec := some (.num r.2.1)
      frame := some r.2.2
      equinox := if r.2.2 = "icrs" then some 2000 else t.equinox }

/-- The constructor arguments of `Target.__init__` (target.py lines
156-165), one field per keyword parameter. -/
structure TargetArgs where
  name : Option String
  RA : Option NumOrStr
  Dec : Option NumOrStr
  equinox : Option ℚ
  frame : Option String
  rotmode : Option String
  PA : Option ℚ
  RAOffset : Option ℚ
  DecOffset : Option ℚ
  objecttype : Option String
  acquisition : Option String
  PMRA : ℚ
  PMDec : ℚ
  epoch : Option ℚ
  obstime : Option ℚ
  mag : List (String × Option ℚ)
  comment : Option String

/-- Embeds `Target.__init__` (target.py lines 156-199): assign the
optional attributes, then either resolve from the name (when a name is
given and both RA and Dec are absent) or store RA/Dec — converting
sexagesimal strings only when BOTH are strings — and force equinox to
2000 for the icrs frame; finally run `validate`. -/
def Target.init (a : TargetArgs) : Except TargetErr (Target × List String) :=
  let base : Target := { name := none
                         RA := none
                         Dec := none
                         equinox := none
                         frame := a.frame
                         rotmode := a.rotmode
                         PA := a.PA
                         RAOffset := a.RAOffset
                         DecOffset := a.DecOffset
                         objecttype := a.objecttype
                         acquisition := a.acquisition
                         PMRA := a.PMRA
                         PMDec := a.PMDec
                         epoch := a.epoch
                         obstime := a.obstime
                         mag := a.mag
                         comment := a.comment }
  let t :=
    if a.name ≠ none ∧ a.RA = none ∧ a.Dec = none then
      match a.name with
      | some n => base.from_name n
      | none => base
    else
      let rd : Option NumOrStr × Option NumOrStr :=
        match a.RA, a.Dec with
        | some (.str r), some (.str d) =>
          let p := parseSexagesimal r d
          (some (.num p.1), some (.num p.2))
        | ra, dec => (ra, dec)
      { base with
          name := a.name
          RA := rd.1
          Dec := rd.2
          equinox := if a.frame = some "icrs" then some 2000 else a.equinox }
  t.validate

/-- The astropy `SkyCoord` state built by `Target.coord` (target.py lines
277-283), with times as decimal years. -/
structure SkyCoord where
  ra : ℚ
  dec : ℚ
  frame : Option String
  equinox : ℚ
  obstime : ℚ
  pm_ra_cosdec : ℚ
  pm_dec : ℚ
  distance : ℚ
  deriving DecidableEq

/-- Modelled from the spec: astropy's "standard space-motion propagation"
(sections 4.1 and 6) — the coordinate drifts linearly by the proper
motion (arcsec/yr, converted to degrees) over the elapsed time, and the
returned coordinate's obstime is the new obstime. -/
def applySpaceMotion (sc : SkyCoord) (newObstime : ℚ) : SkyCoord :=
  { sc with
    ra := sc.ra + sc.pm_ra_cosdec * (newObstime - sc.obstime) / 3600,
    dec := sc.dec + sc.pm_dec * (newObstime - sc.obstime) / 3600,
    obstime := newObstime }

/-- Python's frame name of the built coordinate: astropy defaults an
unspecified frame to icrs. -/
def SkyCoord.frameName (sc : SkyCoord) : String := sc.frame.getD "icrs"

/-- Embeds `Target.coord` (target.py lines 262-293): build the coordinate
at the stated equinox with obstime = epoch (defaulting to now), then
propagate to obstime (defaulting to now) only when BOTH proper-motion
components are non-zero.  `none` models the `TypeError` Python would
raise when RA/Dec is not numeric or the equinox is unset. -/
def Target.coord (t : Target) (now : ℚ) : Option SkyCoord :=
  match t.RA, t.Dec, t.equinox with
  | some (.num ra), some (.num dec), some e =>
    let myepoch := t.epoch.getD now
    let sc : SkyCoord := { ra := ra
                           dec := dec
                           frame := t.frame
                           equinox := e
                           obstime := myepoch
                           pm_ra_cosdec := t.PMRA
                           pm_dec := t.PMDec
                           distance := 1 }
    if |t.PMRA| > 0 ∧ |t.PMDec| > 0 then
      some (applySpaceMotion sc (t.obstime.getD now))
    else some sc
  | _, _, _ => none

/-- The Target Description Language record built by `Target.to_dict`
(target.py lines 347-365), one field per dict key. -/
structure TDLDict where
  name : Option String
  RA : ℚ
  Dec : ℚ
  equinox : ℚ
  epoch : ℚ
  frame : String
  rotmode : Option String
  PA : Option ℚ
  RAOffset : Option ℚ
  DecOffset : Option ℚ
  objecttype : Option String
  acquisition : Option String
  PMRA : ℚ
  PMDec : ℚ
  obstime : Option ℚ
  mag : List (String × ℚ)
  comment : Option String
  deriving DecidableEq

/-- Embeds `Target.to_dict` (target.py lines 331-366): resolved
(post-propagation) RA/Dec, equinox and epoch read back off the built
coordinate, only the non-null magnitudes, obstime already a decimal
year in this model. -/
def Target.to_dict (t : Target) (now : ℚ) : Option TDLDict :=
  (t.coord now).map fun coord =>
    { name := t.name
      RA := coord.ra
      Dec := coord.dec
      equinox := coord.equinox
      epoch := coord.obstime
      frame := coord.frameName
      rotmode := t.rotmode
      PA := t.PA
      RAOffset := t.RAOffset
      DecOffset := t.DecOffset
      objecttype := t.objecttype
      acquisition := t.acquisition
      PMRA := t.PMRA
      PMDec := t.PMDec
      obstime := t.obstime
      mag := t.mag.filterMap fun bm => bm.2.map fun v => (bm.1, v)
      comment := t.comment }

/-- Embeds the `Target(...)` reconstruction inside `TargetList.read`
(target.py lines 419-436): every written key is read back with
`d.get(key, default)`; all keys are present in a written record, so each
argument is the record's field. -/
def Target.fromDict (d : TDLDict) : Except TargetErr (Target × List String) :=
  Target.init
    { name := d.name, RA := some (.num d.RA), Dec := some (.num d.Dec),
      equinox := some d.equinox, frame := some d.frame,
      rotmode := d.rotmode, PA := d.PA,
      RAOffset := d.RAOffset, DecOffset := d.DecOffset,
      objecttype := d.objecttype, acquisition := d.acquisition,
      PMRA := d.PMRA, PMDec := d.PMDec,
      epoch := some d.epoch, obstime := d.obstime,
      mag := d.mag.map fun bv => (bv.1, some bv.2),
      comment := d.comment }

/-- First-error-aborting traversal: the Option image of a Python list
comprehension in which any element may raise. -/
def traverseOption {α β : Type} (f : α → Option β) : List α → Option (List β)
  | [] => some []
  | x :: xs =>
    match f x, traverseOption f xs with
    | some y, some ys => some (y :: ys)
    | _, _ => none

/-- Embeds `TargetList.write` (target.py lines 404-410) up to the yaml
encoding, which is modelled as the identity on the record list (spec
section 6): validate every member (any failure aborts the write), then
collect every member's record.  `none` models a raised exception. -/
def TargetList.write (ts : List Target) (now : ℚ) : Option (List TDLDict) :=
  (traverseOption (fun t => (Target.validate t).toOption) ts).bind
    fun vs => traverseOption (fun tw => Target.to_dict tw.1 now) vs

/-- Embeds `TargetList.read` (target.py lines 413-437) from the decoded
record list (yaml decode of a written file is the identity, spec section
6): reconstruct a `Target` from every record; a failed reconstruction
raises. -/
def TargetList.read (ds : List TDLDict) : Option (List Target) :=
  traverseOption (fun d => (Target.fromDict d).toOption.map Prod.fst) ds

/-- A valid `Target` in the sense of the spec's data model (section 3): a
constructed, validated target whose RA/Dec resolved to numbers and whose
frame is a string identifier, with equinox pinned to 2000 for icrs (as
`__init__` guarantees).  `Target.init` produces exactly such states on
success, see `Target.init_good`. -/
def goodTarget (t : Target) : Prop :=
  (∃ n, t.name = some n) ∧
  (∃ q, t.RA = some (.num q)) ∧
  (∃ q, t.Dec = some (.num q)) ∧
  (∃ e, t.equinox = some e) ∧
  (∃ f, t.frame = some f) ∧
  (t.frame = some "icrs" → t.equinox = some 2000) ∧
  (∃ rm, t.rotmode = some rm ∧ pyLower rm ∈ rotator_modes) ∧
  (∃ pa, t.PA = some pa ∧ 0 ≤ pa ∧ pa ≤ 360) ∧
  (∃ aq, t.acquisition = some aq ∧ pyLower aq ∈ acquisition_modes) ∧
  (∃ ot, t.objecttype = some ot ∧ pyLower ot ∈ object_types)

/-! ## Concrete states used as test inputs by the theorems below -/

/-- A MOSFIRE science-configuration state with the K filter (field values
as `__init__` would assign them for mask longslit_46x0.7, K,
spectroscopy). -/
def mosfireK : MOSFIREConfig :=
  { name := "longslit_46x0.7 K-spectroscopy", package := "mosfire",
    instrument := "MOSFIRE", mode := "spectroscopy", filter := "K",
    mask := "longslit_46x0.7", arclamp := none, domeflatlamp := none }

/-- A MOSFIRE science-configuration state with the default Y filter. -/
def mosfireY : MOSFIREConfig :=
  { name := "longslit_46x0.7 Y-spectroscopy", package := "mosfire",
    instrument := "MOSFIRE", mode := "spectroscopy", filter := "Y",
    mask := "longslit_46x0.7", arclamp := none, domeflatlamp := none }

/-- Constructor-argument helper: the `Target.__init__` keyword arguments
with the offsets, proper motions, epoch, obstime, magnitudes and comment
left at their defaults. -/
def mkArgs (nm : Option String) (ra dec : Option NumOrStr) (eqx : Option ℚ)
    (fr rm : Option String) (pa : Option ℚ) (aq ot : Option String) :
    TargetArgs :=
  { name := nm, RA := ra, Dec := dec, equinox := eqx, frame := fr,
    rotmode := rm, PA := pa, RAOffset := none, DecOffset := none,
    objecttype := ot, acquisition := aq, PMRA := 0, PMDec := 0,
    epoch := none, obstime := none, mag := [], comment := none }

/-- A validated target state with PMRA = 0.1 arcsec/yr and PMDec = 0. -/
def tgtPMra : Target :=
  { name := some "pm1", RA := some (.num 10), Dec := some (.num 20),
    equinox := some 2000, frame := some "icrs", rotmode := some "pa",
    PA := some 0, RAOffset := none, DecOffset := none,
    objecttype := some "science", acquisition := some "guider: bright",
    PMRA := 1/10, PMDec := 0, epoch := some 2000, obstime := some 2010,
    mag := [], comment := none }

/-- A validated target state with both proper-motion components 0.1. -/
def tgtPMboth : Target :=
  { name := some "pm2", RA := some (.num 10), Dec := some (.num 20),
    equinox := some 2000, frame := some "icrs", rotmode := some "pa",
    PA := some 0, RAOffset := none, DecOffset := none,
    objecttype := some "science", acquisition := some "guider: bright",
    PMRA := 1/10, PMDec := 1/10, epoch := some 2000, obstime := some 2010,
    mag := [], comment := none }

/-- A valid target state exercising proper motion and magnitudes, used as
the concrete round-trip input. -/
def tgtGood : Target :=
  { name := some "g", RA := some (.num 10), Dec := some (.num 20),
    equinox := some 2000, frame := some "icrs", rotmode := some "pa",
    PA := some 5, RAOffset := none, DecOffset := none,
    objecttype := some "science", acquisition := some "blind",
    PMRA := 1/10, PMDec := 1/10, epoch := some 2000, obstime := some 2010,
    mag := [("K", some 9)], comment := none }

/-! ## Helper lemmas -/

lemma str_append_assoc (a b c : String) : a ++ b ++ c = a ++ (b ++ c) :=
  congrArg String.mk (List.append_assoc a.data b.data c.data)

lemma valid_PAs_of_mem {s : String} (h : s ∈ rotator_modes) :
    valid_PAs s = some (0, 360) := by
  simp only [rotator_modes, List.mem_cons, List.mem_singleton,
    List.not_mem_nil, or_false] at h
  rcases h with h | h | h <;> simp [valid_PAs, h]

lemma magFilter_lift (l : List (String × ℚ)) :
    l.filterMap ((fun bm => Option.map (fun v => (bm.1, v)) bm.2) ∘
      fun bv => (bv.1, some bv.2)) = l := by
  induction l with
  | nil => rfl
  | cons x xs ih => simp [ih, Function.comp]

/-- A target satisfying `goodTarget` revalidates to itself with no
warnings: `validate` is idempotent on constructed targets. -/
lemma validate_of_good (t : Target) (h : goodTarget t) :
    t.validate = .ok (t, []) := by
  obtain ⟨⟨n, hn⟩, ⟨ra, hra⟩, ⟨dec, hdec⟩, ⟨e, he⟩, ⟨f, hf⟩, hicrs,
    ⟨rm, hrm, hrmv⟩, ⟨pa, hpa, hpa0, hpa1⟩, ⟨aq, haq, haqv⟩,
    ⟨ot, hot, hotv⟩⟩ := h
  cases t
  simp only at hn hra hdec he hf hrm hpa haq hot
  subst hn hra hdec he hf hrm hpa haq hot
  simp [Target.validate, hrmv, haqv, hotv, valid_PAs_of_mem hrmv,
    not_lt.mpr hpa0, not_lt.mpr hpa1]

/-- One target round-trips: its record reconstructs to a target whose
record is the same. -/
lemma good_roundtrip (t : Target) (now : ℚ) (h : goodTarget t) :
    ∃ d t', Target.to_dict t now = some d ∧ Target.fromDict d = .ok (t', []) ∧
      Target.to_dict t' now = some d := by
  obtain ⟨nm, tRA, tDec, teq, tfr, trm, tPA, rao, deco, tot, taq,
    pmra, pmdec, ep, ob, mg, com⟩ := t
  obtain ⟨⟨n, hn⟩, ⟨ra, hra⟩, ⟨dec, hdec⟩, ⟨e, he⟩, ⟨f, hf⟩, hicrs,
    ⟨rm, hrm, hrmv⟩, ⟨pa, hpa, hpa0, hpa1⟩, ⟨aq, haq, haqv⟩,
    ⟨ot, hot, hotv⟩⟩ := h
  simp only at hn hra hdec he hf hrm hpa haq hot hicrs
  subst hn hra hdec he hf hrm hpa haq hot
  have heqn : (if (some f = some "icrs") then some (2000:ℚ) else some e) = some e := by
    by_cases hf2 : f = "icrs"
    · subst hf2
      have h2 := hicrs rfl
      simp only [Option.some.injEq] at h2
      simp [h2]
    · simp [hf2]
  by_cases hpm : pmra ≠ 0 ∧ pmdec ≠ 0
  · refine ⟨⟨some n, ra + pmra * ((ob.getD now) - (ep.getD now)) / 3600,
             dec + pmdec * ((ob.getD now) - (ep.getD now)) / 3600,
             e, ob.getD now, f, some rm, some pa, rao, deco, some ot, some aq,
             pmra, pmdec, ob,
             mg.filterMap (fun bm => bm.2.map fun v => (bm.1, v)), com⟩,
           ⟨some n, some (.num (ra + pmra * ((ob.getD now) - (ep.getD now)) / 3600)),
             some (.num (dec + pmdec * ((ob.getD now) - (ep.getD now)) / 3600)),
             some e, some f, some rm, some pa, rao, deco, some ot, some aq,
             pmra, pmdec, some (ob.getD now), ob,
             (mg.filterMap (fun bm => bm.2.map fun v => (bm.1, v))).map
               (fun bv => (bv.1, some bv.2)), com⟩,
           ?_, ?_, ?_⟩
    · simp [Target.to_dict, Target.coord, abs_pos, hpm, applySpaceMotion,
        SkyCoord.frameName]
    · have hg : goodTarget
          ⟨some n, some (.num (ra + pmra * ((ob.getD now) - (ep.getD now)) / 3600)),
            some (.num (dec + pmdec * ((ob.getD now) - (ep.getD now)) / 3600)),
            some e, some f, some rm, some pa, rao, deco, some ot, some aq,
            pmra, pmdec, some (ob.getD now), ob,
            (mg.filterMap (fun bm => bm.2.map fun v => (bm.1, v))).map
              (fun bv => (bv.1, some bv.2)), com⟩ :=
        ⟨⟨n, rfl⟩, ⟨_, rfl⟩, ⟨_, rfl⟩, ⟨e, rfl⟩, ⟨f, rfl⟩, hicrs,
         ⟨rm, rfl, hrmv⟩, ⟨pa, rfl, hpa0, hpa1⟩, ⟨aq, rfl, haqv⟩,
         ⟨ot, rfl, hotv⟩⟩
      simp only [Target.fromDict, Target.init]
      simp only [ne_eq, reduceCtorEq, not_false_iff, false_and, if_false, heqn]
      exact validate_of_good _ hg
    · simp [Target.to_dict, Target.coord, abs_pos, hpm, applySpaceMotion,
        SkyCoord.frameName]
      exact magFilter_lift _
  · refine ⟨⟨some n, ra, dec, e, ep.getD now, f, some rm, some pa, rao, deco,
             some ot, some aq, pmra, pmdec, ob,
             mg.filterMap (fun bm => bm.2.map fun v => (bm.1, v)), com⟩,
           ⟨some n, some (.num ra), some (.num dec),
             some e, some f, some rm, some pa, rao, deco, some ot, some aq,
             pmra, pmdec, some (ep.getD now), ob,
             (mg.filterMap (fun bm => bm.2.map fun v => (bm.1, v))).map
               (fun bv => (bv.1, some bv.2)), com⟩,
           ?_, ?_, ?_⟩
    · simp [Target.to_dict, Target.coord, abs_pos, hpm, SkyCoord.frameName]
    · have hg : goodTarget
          ⟨some n, some (.num ra), some (.num dec),
            some e, some f, some rm, some pa, rao, deco, some ot, some aq,
            pmra, pmdec, some (ep.getD now), ob,
            (mg.filterMap (fun bm => bm.2.map fun v => (bm.1, v))).map
              (fun bv => (bv.1, some bv.2)), com⟩ :=
        ⟨⟨n, rfl⟩, ⟨_, rfl⟩, ⟨_, rfl⟩, ⟨e, rfl⟩, ⟨f, rfl⟩, hicrs,
         ⟨rm, rfl, hrmv⟩, ⟨pa, rfl, hpa0, hpa1⟩, ⟨aq, rfl, haqv⟩,
         ⟨ot, rfl, hotv⟩⟩
      simp only [Target.fromDict, Target.init]
      simp only [ne_eq, reduceCtorEq, not_false_iff, false_and, if_false, heqn]
      exact validate_of_good _ hg
    · simp [Target.to_dict, Target.coord, abs_pos, hpm, SkyCoord.frameName]
      exact magFilter_lift _

/-- Inversion of a successful `validate`: what must have held before, and
what holds of the returned state. -/
lemma validate_inv {t0 t : Target} {w : List String}
    (h : t0.validate = .ok (t, w)) :
    t0.name ≠ none ∧ t0.RA ≠ none ∧ t0.Dec ≠ none ∧ t0.equinox ≠ none ∧
    (∃ rm, t.rotmode = some rm ∧ pyLower rm ∈ rotator_modes) ∧
    (∃ pa, t.PA = some pa ∧ 0 ≤ pa ∧ pa ≤ 360) ∧
    (∃ aq, t.acquisition = some aq ∧ pyLower aq ∈ acquisition_modes) ∧
    (∃ ot, t.objecttype = some ot ∧ pyLower ot ∈ object_types) ∧
    t.name = t0.name ∧ t.RA = t0.RA ∧ t.Dec = t0.Dec ∧
    t.equinox = t0.equinox ∧ t.frame = t0.frame := by
  simp only [Target.validate] at h
  by_cases h1 : t0.name = none
  · rw [if_pos h1] at h; exact absurd h (by simp)
  rw [if_neg h1] at h
  by_cases h2 : t0.RA = none
  · rw [if_pos h2] at h; exact absurd h (by simp)
  rw [if_neg h2] at h
  by_cases h3 : t0.Dec = none
  · rw [if_pos h3] at h; exact absurd h (by simp)
  rw [if_neg h3] at h
  by_cases h4 : t0.equinox = none
  · rw [if_pos h4] at h; exact absurd h (by simp)
  rw [if_neg h4] at h
  by_cases h5 : pyLower (t0.rotmode.getD "PA") ∉ rotator_modes
  · rw [if_pos h5] at h; exact absurd h (by simp)
  rw [if_neg h5] at h
  simp only [valid_PAs_of_mem (not_not.mp h5)] at h
  by_cases h6 : t0.PA.getD 0 < 0 ∨ t0.PA.getD 0 > 360
  · rw [if_pos h6] at h; exact absurd h (by simp)
  rw [if_neg h6] at h
  by_cases h7 : pyLower (t0.acquisition.getD "guider: bright") ∉ acquisition_modes
  · rw [if_pos h7] at h; exact absurd h (by simp)
  rw [if_neg h7] at h
  by_cases h8 : pyLower (t0.objecttype.getD "science") ∉ object_types
  · rw [if_pos h8] at h; exact absurd h (by simp)
  rw [if_neg h8] at h
  simp only [Except.ok.injEq, Prod.mk.injEq] at h
  obtain ⟨ht, hw⟩ := h
  subst ht
  push_neg at h6
  refine ⟨h1, h2, h3, h4,
    ⟨t0.rotmode.getD "PA", rfl, not_not.mp h5⟩,
    ⟨t0.PA.getD 0, rfl, h6.1, h6.2⟩,
    ⟨t0.acquisition.getD "guider: bright", rfl, not_not.mp h7⟩,
    ⟨t0.objecttype.getD "science", rfl, not_not.mp h8⟩,
    rfl, rfl, rfl, rfl, rfl⟩

/-- A target constructed by `Target.__init__` from spec-typed arguments
(frame a string, RA/Dec both numbers or both sexagesimal strings) is a
`goodTarget`: the quantification of the round-trip theorem below is over
exactly the states construction produces. -/
lemma init_good {a : TargetArgs} {t : Target} {w : List String}
    (hframe : a.frame ≠ none)
    (hshape : (∃ q1 q2, a.RA = some (.num q1) ∧ a.Dec = some (.num q2)) ∨
              (∃ s1 s2, a.RA = some (.str s1) ∧ a.Dec = some (.str s2)))
    (h : Target.init a = .ok (t, w)) : goodTarget t := by
  obtain ⟨anm, aRA, aDec, aeq, afr, arm, aPA, arao, adeco, aot, aaq,
    apmra, apmdec, aep, aob, amg, acom⟩ := a
  simp only at hframe
  rcases hshape with ⟨q1, q2, hra, hdec⟩ | ⟨s1, s2, hra, hdec⟩ <;>
    simp only at hra hdec <;> subst hra hdec <;>
    simp only [Target.init, ne_eq, reduceCtorEq, false_and, and_false,
      if_false, not_false_iff] at h <;>
    obtain ⟨hn0, hra0, hdec0, heq0, hrm, hpa, haq, hot, en, eRA, eDec, eEq, eFr⟩ :=
      validate_inv h <;>
    simp only at hn0 hra0 hdec0 heq0 en eRA eDec eEq eFr <;>
    obtain ⟨f, hf⟩ := Option.ne_none_iff_exists'.mp hframe <;>
    obtain ⟨n, hn⟩ := Option.ne_none_iff_exists'.mp hn0 <;>
    obtain ⟨e, he⟩ := Option.ne_none_iff_exists'.mp heq0 <;>
    exact ⟨⟨n, en.trans hn⟩, ⟨_, eRA⟩, ⟨_, eDec⟩, ⟨e, eEq.trans he⟩,
      ⟨f, eFr.trans hf⟩,
      (fun hfi => by
        rw [eFr] at hfi
        rw [eEq, if_pos hfi]),
      hrm, hpa, haq, hot⟩

/-! ## Claim theorems -/

/-- C1: `Target.coord` applies space-motion propagation if and only if
both `PMRA` and `PMDec` are non-zero: with exactly one component non-zero
the unpropagated coordinate built at the stated equinox with obstime =
epoch (defaulting to now) is returned; with both non-zero the coordinate
is propagated from that epoch to obstime (defaulting to now). -/
theorem coord_propagates_iff_both_pm_nonzero (t : Target) (now ra dec e : ℚ)
    (hra : t.RA = some (.num ra)) (hdec : t.Dec = some (.num dec))
    (heq : t.equinox = some e) :
    (((t.PMRA ≠ 0 ∧ t.PMDec = 0) ∨ (t.PMRA = 0 ∧ t.PMDec ≠ 0)) →
      t.coord now = some
        { ra := ra, dec := dec, frame := t.frame, equinox := e,
          obstime := t.epoch.getD now, pm_ra_cosdec := t.PMRA,
          pm_dec := t.PMDec, distance := 1 }) ∧
    ((t.PMRA ≠ 0 ∧ t.PMDec ≠ 0) →
      t.coord now = some (applySpaceMotion
        { ra := ra, dec := dec, frame := t.frame, equinox := e,
          obstime := t.epoch.getD now, pm_ra_cosdec := t.PMRA,
          pm_dec := t.PMDec, distance := 1 } (t.obstime.getD now))) := by
  refine ⟨fun h => ?_, fun h => ?_⟩
  · rcases h with ⟨h1, h2⟩ | ⟨h1, h2⟩ <;>
      simp [Target.coord, hra, hdec, heq, abs_pos, h1, h2]
  · simp [Target.coord, hra, hdec, heq, abs_pos, h.1, h.2]

/-- Witness for C1 at concrete targets: PMRA = 0.1, PMDec = 0 yields the
unpropagated coordinate; both 0.1 yields the propagated one. -/
theorem coord_propagates_iff_both_pm_nonzero_witness :
    tgtPMra.coord 2020 = some
      { ra := 10, dec := 20, frame := some "icrs", equinox := 2000,
        obstime := 2000, pm_ra_cosdec := 1/10, pm_dec := 0, distance := 1 } ∧
    tgtPMboth.coord 2020 = some (applySpaceMotion
      { ra := 10, dec := 20, frame := some "icrs", equinox := 2000,
        obstime := 2000, pm_ra_cosdec := 1/10, pm_dec := 1/10,
        distance := 1 } 2010) :=
  ⟨(coord_propagates_iff_both_pm_nonzero tgtPMra 2020 10 20 2000 rfl rfl rfl).1
      (Or.inl ⟨by norm_num [tgtPMra], rfl⟩),
   (coord_propagates_iff_both_pm_nonzero tgtPMboth 2020 10 20 2000 rfl rfl rfl).2
      ⟨by norm_num [tgtPMboth], by norm_num [tgtPMboth]⟩⟩

/-- C2: for every `TargetList` built from valid `Target`s (the states
`Target.__init__` produces from spec-typed arguments, see `init_good`),
`write` followed by `read` succeeds and yields a list of the same length
whose members' `to_dict` records are field-for-field equal to the
originals' records (in this exact-time model even the epoch field
agrees, which satisfies the claim's "at most epoch may differ"). -/
theorem targetlist_write_read_roundtrip (ts : List Target) (now : ℚ)
    (h : ∀ t ∈ ts, goodTarget t) :
    ∃ ds ts', TargetList.write ts now = some ds ∧
      TargetList.read ds = some ts' ∧ ts'.length = ts.length ∧
      ts'.map (fun t => Target.to_dict t now) =
        ts.map (fun t => Target.to_dict t now) := by
  induction ts with
  | nil => exact ⟨[], [], rfl, rfl, rfl, rfl⟩
  | cons t ts ih =>
    obtain ⟨ds, ts', hw, hr, hlen, hmap⟩ :=
      ih (fun x hx => h x (List.mem_cons_of_mem _ hx))
    have hg := h t (List.mem_cons_self _ _)
    obtain ⟨d, t', hd, hfd, hd'⟩ := good_roundtrip t now hg
    have hv := validate_of_good t hg
    refine ⟨d :: ds, t' :: ts', ?_, ?_, ?_, ?_⟩
    · unfold TargetList.write at hw ⊢
      cases hvs : traverseOption (fun t => (Target.validate t).toOption) ts with
      | none => rw [hvs] at hw; simp at hw
      | some vs =>
        rw [hvs] at hw
        simp only [Option.some_bind] at hw
        simp only [traverseOption, hv, hvs]
        simp [Except.toOption, traverseOption, hd, hw]
    · unfold TargetList.read at hr ⊢
      simp only [traverseOption, hfd, hr]
      simp [Except.toOption]
    · simp [hlen]
    · simp [hmap, hd'.trans hd.symm]

/-- Witness for C2: one concrete valid target (with proper motion and a
magnitude) written at now = 2020 and read back. -/
theorem targetlist_write_read_roundtrip_witness :
    (∀ t ∈ [tgtGood], goodTarget t) ∧
    (∃ ds ts', TargetList.write [tgtGood] 2020 = some ds ∧
      TargetList.read ds = some ts' ∧ ts'.length = [tgtGood].length ∧
      ts'.map (fun t => Target.to_dict t 2020) =
        [tgtGood].map (fun t => Target.to_dict t 2020)) := by
  have hg : goodTarget tgtGood :=
    ⟨⟨"g", rfl⟩, ⟨10, rfl⟩, ⟨20, rfl⟩, ⟨2000, rfl⟩, ⟨"icrs", rfl⟩,
     fun _ => rfl, ⟨"pa", rfl, by decide⟩, ⟨5, rfl, by norm_num, by norm_num⟩,
     ⟨"blind", rfl, by decide⟩, ⟨"science", rfl, by decide⟩⟩
  have hall : ∀ t ∈ [tgtGood], goodTarget t :=
    fun t ht => (List.mem_singleton.mp ht) ▸ hg
  exact ⟨hall, targetlist_write_read_roundtrip [tgtGood] 2020 hall⟩

/-- C3: `cals()` returns exactly four elements for the K filter — 7
repeats of (Stare, 11 s, dome-flat on), 7 of (Stare, 11 s, dome-flat
off), 2 of (Stare, 1 s, arc Ne), 2 of (Stare, 1 s, arc Ar), 18 repeats
in total — and exactly the first element alone for any other filter. -/
theorem mosfire_cals_structure (c : MOSFIREConfig) :
    (c.filter = "K" → c.cals =
      [{ pattern := Stare, detconfig := MOSFIREDetectorConfig.init (some 11) "CDS" 1,
         instconfig := (c.domeflats false).2, repeats := 7 },
       { pattern := Stare, detconfig := MOSFIREDetectorConfig.init (some 11) "CDS" 1,
         instconfig := (c.domeflats true).2, repeats := 7 },
       { pattern := Stare, detconfig := MOSFIREDetectorConfig.init (some 1) "CDS" 1,
         instconfig := (c.arcs "Ne").2, repeats := 2 },
       { pattern := Stare, detconfig := MOSFIREDetectorConfig.init (some 1) "CDS" 1,
         instconfig := (c.arcs "Ar").2, repeats := 2 }]) ∧
    (c.filter ≠ "K" → c.cals =
      [{ pattern := Stare, detconfig := MOSFIREDetectorConfig.init (some 11) "CDS" 1,
         instconfig := (c.domeflats false).2, repeats := 7 }]) ∧
    (c.domeflats false).2.domeflatlamp = some true ∧
    (c.domeflats true).2.domeflatlamp = some false ∧
    (c.arcs "Ne").2.arclamp = some "Ne" ∧
    (c.arcs "Ar").2.arclamp = some "Ar" := by
  refine ⟨fun h => ?_, fun h => ?_, ?_, ?_, ?_, ?_⟩ <;>
    simp [MOSFIREConfig.cals, MOSFIREConfig.domeflats, MOSFIREConfig.arcs,
      deepcopy, *]

/-- Witness for C3 at a K-filter and a Y-filter configuration. -/
theorem mosfire_cals_structure_witness :
    mosfireK.cals =
      [{ pattern := Stare, detconfig := MOSFIREDetectorConfig.init (some 11) "CDS" 1,
         instconfig := (mosfireK.domeflats false).2, repeats := 7 },
       { pattern := Stare, detconfig := MOSFIREDetectorConfig.init (some 11) "CDS" 1,
         instconfig := (mosfireK.domeflats true).2, repeats := 7 },
       { pattern := Stare, detconfig := MOSFIREDetectorConfig.init (some 1) "CDS" 1,
         instconfig := (mosfireK.arcs "Ne").2, repeats := 2 },
       { pattern := Stare, detconfig := MOSFIREDetectorConfig.init (some 1) "CDS" 1,
         instconfig := (mosfireK.arcs "Ar").2, repeats := 2 }] ∧
    mosfireY.cals =
      [{ pattern := Stare, detconfig := MOSFIREDetectorConfig.init (some 11) "CDS" 1,
         instconfig := (mosfireY.domeflats false).2, repeats := 7 }] :=
  ⟨(mosfire_cals_structure mosfireK).1 rfl,
   (mosfire_cals_structure mosfireY).2.1 (by decide)⟩

/-- C4 (code bug): the claim says readoutmode CDS is accepted and MCDS33
and XYZ raise detector-config domain errors.  The code instead raises
`ValueError` on CDS (`int('')` on the empty regex group), raises
`NameError` — not `DetectorConfigError`, which is never imported into
mosfire.py — on MCDS33 and XYZ, and accepts MCDS0 although the documented
range starts at 1; only MCDS16 behaves as claimed. -/
theorem mosfire_readoutmode_validate_bug :
    (MOSFIREDetectorConfig.init none "CDS" 1).validate
        = .error (.valueError "invalid literal for int() with base 10") ∧
    (MOSFIREDetectorConfig.init none "MCDS16" 1).validate = .ok () ∧
    (MOSFIREDetectorConfig.init none "MCDS33" 1).validate
        = .error (.nameError "DetectorConfigError") ∧
    (MOSFIREDetectorConfig.init none "XYZ" 1).validate
        = .error (.nameError "DetectorConfigError") ∧
    (MOSFIREDetectorConfig.init none "MCDS0" 1).validate = .ok () :=
  ⟨by decide, by decide, by decide, by decide, by decide⟩

/-- C5 (code bug): constructing a `MOSFIREConfig` raises
`AttributeError` before any field is set, because the identity regex
expects a module path of the shape `keckODL.<pkg>.config` and the class
actually lives in `keckODL.mosfire`, so `re.search` returns `None`; the
base class only matches by accident, yielding the pair
("instrument", "Instrument") from its own module name. -/
theorem instrument_identity_derivation_bug :
    MOSFIREConfig.init "spectroscopy" "Y" "longslit_46x0.7"
        = .error (.attributeError "NoneType object has no attribute group") ∧
    classPatternSearch mosfireClassStr = none ∧
    classPatternSearch instrumentConfigClassStr
        = some ("instrument", "Instrument") :=
  ⟨by decide, by decide, by decide⟩

/-- C6: `arcs` and `domeflats` never mutate the receiver — its lamp
fields stay `None` and its name is unchanged — while the returned copy
has the lamp field set and the name extended with the lamp annotation. -/
theorem arcs_domeflats_do_not_mutate (c : MOSFIREConfig) (lamp : String)
    (off : Bool) (h : c.arclamp = none ∧ c.domeflatlamp = none) :
    (c.arcs lamp).1 = c ∧ (c.domeflats off).1 = c ∧
    (c.arcs lamp).1.arclamp = none ∧ (c.arcs lamp).1.domeflatlamp = none ∧
    (c.domeflats off).1.arclamp = none ∧
    (c.domeflats off).1.domeflatlamp = none ∧
    (c.arcs lamp).1.name = c.name ∧ (c.domeflats off).1.name = c.name ∧
    (c.arcs lamp).2.arclamp = some lamp ∧
    (c.arcs lamp).2.name = c.name ++ " arclamp=" ++ lamp ∧
    (c.domeflats off).2.domeflatlamp = some (!off) ∧
    (c.domeflats off).2.name
      = c.name ++ " domeflatlamp=" ++ pyBoolStr (!off) := by
  simp [MOSFIREConfig.arcs, MOSFIREConfig.domeflats, deepcopy, h.1, h.2]

/-- Witness for C6 at the Y-filter science configuration. -/
theorem arcs_domeflats_do_not_mutate_witness :
    (mosfireY.arclamp = none ∧ mosfireY.domeflatlamp = none) ∧
    ((mosfireY.arcs "Ne").1 = mosfireY ∧ (mosfireY.domeflats true).1 = mosfireY ∧
     (mosfireY.arcs "Ne").1.arclamp = none ∧
     (mosfireY.arcs "Ne").1.domeflatlamp = none ∧
     (mosfireY.domeflats true).1.arclamp = none ∧
     (mosfireY.domeflats true).1.domeflatlamp = none ∧
     (mosfireY.arcs "Ne").1.name = mosfireY.name ∧
     (mosfireY.domeflats true).1.name = mosfireY.name ∧
     (mosfireY.arcs "Ne").2.arclamp = some "Ne" ∧
     (mosfireY.arcs "Ne").2.name = mosfireY.name ++ " arclamp=" ++ "Ne" ∧
     (mosfireY.domeflats true).2.domeflatlamp = some (!true) ∧
     (mosfireY.domeflats true).2.name
       = mosfireY.name ++ " domeflatlamp=" ++ pyBoolStr (!true)) :=
  ⟨⟨rfl, rfl⟩, arcs_domeflats_do_not_mutate mosfireY "Ne" true ⟨rfl, rfl⟩⟩

/-- C7 counterexample: the claim as stated is false on two points.  The
rotmode default the code assigns is the string "PA", not the documented
"pa" (first two conjuncts); and a construction with equinox omitted but
frame icrs (the default frame) succeeds instead of failing, because
`__init__` forces equinox to 2000 for icrs (third conjunct). -/
theorem target_defaults_counterexample :
    ((Target.init (mkArgs (some "tgt") (some (.num 10)) (some (.num 20))
        (some 2000) (some "icrs") none (some 5) (some "blind")
        (some "sky"))).toOption.map (fun p => p.1.rotmode))
      = some (some "PA") ∧
    (some "PA" : Option String) ≠ some "pa" ∧
    (Target.init (mkArgs (some "tgt") (some (.num 10)) (some (.num 20))
        none (some "icrs") (some "pa") (some 5) (some "blind")
        (some "sky"))).toOption.isSome = true :=
  ⟨by decide, by decide, by decide⟩

/-- C7 as amended: with name, RA, Dec present and equinox present (or
frame icrs, where equinox is forced to 2000), each omitted defaultable
field gets its default — rotmode "PA" (the documented "pa" up to case),
PA 0, acquisition "guider: bright", objecttype "science" — with exactly
one warning per omitted field; a missing name, RA, or Dec fails with the
`TargetError` naming that field, and a missing equinox fails exactly when
the frame is not icrs. -/
theorem target_defaults_and_required_fields (b1 b2 b3 b4 : Bool) :
    ((Target.init (mkArgs (some "tgt") (some (.num 10)) (some (.num 20))
        (some 2000) (some "icrs")
        (if b1 then none else some "pa") (if b2 then none else some 10)
        (if b3 then none else some "blind")
        (if b4 then none else some "sky"))).toOption.map
      (fun p => (p.1.rotmode, p.1.PA, p.1.acquisition, p.1.objecttype, p.2)))
      = some (some (if b1 then "PA" else "pa"), some (if b2 then 0 else 10),
          some (if b3 then "guider: bright" else "blind"),
          some (if b4 then "science" else "sky"),
          (if b1 then ["No rotator mode given, assuming PA mode"] else []) ++
          (if b2 then ["No PA given, assuming 0 deg"] else []) ++
          (if b3 then ["No acquisition mode given, assuming \"guider: bright\""]
           else []) ++
          (if b4 then ["No object type given, assuming \"science\""] else [])) ∧
    Target.init (mkArgs none (some (.num 10)) (some (.num 20)) (some 2000)
        (some "icrs") (some "pa") (some 10) (some "blind") (some "sky"))
      = .error .nameRequired ∧
    Target.init (mkArgs (some "tgt") none (some (.num 20)) (some 2000)
        (some "icrs") (some "pa") (some 10) (some "blind") (some "sky"))
      = .error .raRequired ∧
    Target.init (mkArgs (some "tgt") (some (.num 10)) none (some 2000)
        (some "icrs") (some "pa") (some 10) (some "blind") (some "sky"))
      = .error .decRequired ∧
    Target.init (mkArgs (some "tgt") (some (.num 10)) (some (.num 20)) none
        (some "fk5") (some "pa") (some 10) (some "blind") (some "sky"))
      = .error .equinoxRequired ∧
    ((Target.init (mkArgs (some "tgt") (some (.num 10)) (some (.num 20)) none
        (some "icrs") (some "pa") (some 10) (some "blind")
        (some "sky"))).toOption.map (fun p => p.1.equinox))
      = some (some 2000) := by
  refine ⟨?_, by decide, by decide, by decide, by decide, by decide⟩
  cases b1 <;> cases b2 <;> cases b3 <;> cases b4 <;> decide

/-- C8: with a valid rotator mode, any PA inside [0, 360] is accepted and
stored unchanged, and any PA outside is rejected with the error carrying
the offending PA and the range bounds. -/
theorem pa_range_check (n : String) (ra dec pa : ℚ) (rm : String)
    (hrm : pyLower rm ∈ rotator_modes) :
    (0 ≤ pa ∧ pa ≤ 360 →
      ((Target.init (mkArgs (some n) (some (.num ra)) (some (.num dec))
          (some 2000) (some "icrs") (some rm) (some pa) (some "blind")
          (some "sky"))).toOption.map (fun p => p.1.PA))
        = some (some pa)) ∧
    ((pa < 0 ∨ pa > 360) →
      Target.init (mkArgs (some n) (some (.num ra)) (some (.num dec))
          (some 2000) (some "icrs") (some rm) (some pa) (some "blind")
          (some "sky"))
        = .error (.paOutOfRange pa 0 360)) := by
  have hb : pyLower "blind" ∈ acquisition_modes := by decide
  have hs : pyLower "sky" ∈ object_types := by decide
  refine ⟨fun hin => ?_, fun hout => ?_⟩
  · simp [Target.init, mkArgs, Target.validate, hrm, valid_PAs_of_mem hrm,
      hb, hs, Except.toOption, not_lt.mpr hin.1, not_lt.mpr hin.2]
  · rcases hout with hlt | hgt
    · simp [Target.init, mkArgs, Target.validate, hrm, valid_PAs_of_mem hrm,
        hb, hs, hlt]
    · simp [Target.init, mkArgs, Target.validate, hrm, valid_PAs_of_mem hrm,
        hb, hs, hgt]

/-- Witness for C8 at rotmode pa with the out-of-range PA 400 (and the
in-range PA case exercised through the same theorem at PA 400 being
rejected; acceptance at PA 10 follows from the amended-C7 theorem's
inputs, while here the range error is the instantiated conclusion). -/
theorem pa_range_check_witness :
    (pyLower "pa" ∈ rotator_modes) ∧
    ((0:ℚ) ≤ 10 ∧ (10:ℚ) ≤ 360) ∧
    ((Target.init (mkArgs (some "tgt") (some (.num 1)) (some (.num 2))
        (some 2000) (some "icrs") (some "pa") (some 10) (some "blind")
        (some "sky"))).toOption.map (fun p => p.1.PA)) = some (some 10) ∧
    Target.init (mkArgs (some "tgt") (some (.num 1)) (some (.num 2))
        (some 2000) (some "icrs") (some "pa") (some 400) (some "blind")
        (some "sky"))
      = .error (.paOutOfRange 400 0 360) :=
  ⟨by decide, ⟨by norm_num, by norm_num⟩,
   (pa_range_check "tgt" 1 2 10 "pa" (by decide)).1 ⟨by norm_num, by norm_num⟩,
   (pa_range_check "tgt" 1 2 400 "pa" (by decide)).2 (Or.inr (by norm_num))⟩

/-- C9: sexagesimal conversion happens only when RA and Dec are both
strings; with exactly one of them a string the values are stored exactly
as given (mixed types at the public interface) and construction still
succeeds, while with both strings both are converted to numbers. -/
theorem mixed_ra_dec_types_stored_verbatim (n r r2 : String) (q : ℚ) :
    ((Target.init (mkArgs (some n) (some (.str r)) (some (.num q))
        (some 2000) (some "icrs") (some "pa") (some 0) (some "blind")
        (some "sky"))).toOption.map (fun p => (p.1.RA, p.1.Dec)))
      = some (some (.str r), some (.num q)) ∧
    ((Target.init (mkArgs (some n) (some (.num q)) (some (.str r))
        (some 2000) (some "icrs") (some "pa") (some 0) (some "blind")
        (some "sky"))).toOption.map (fun p => (p.1.RA, p.1.Dec)))
      = some (some (.num q), some (.str r)) ∧
    ((Target.init (mkArgs (some n) (some (.str r)) (some (.str r2))
        (some 2000) (some "icrs") (some "pa") (some 0) (some "blind")
        (some "sky"))).toOption.map (fun p => (p.1.RA, p.1.Dec)))
      = some (some (.num (parseSexagesimal r r2).1),
              some (.num (parseSexagesimal r r2).2)) := by
  have hp : pyLower "pa" ∈ rotator_modes := by decide
  have hb : pyLower "blind" ∈ acquisition_modes := by decide
  have hs : pyLower "sky" ∈ object_types := by decide
  refine ⟨?_, ?_, ?_⟩ <;>
    simp [Target.init, mkArgs, Target.validate, hp, hb, hs,
      valid_PAs_of_mem hp, Except.toOption, show ¬(360:ℚ) < 0 by norm_num]

/-- C10: `domeflats(off)` sets the copy's `domeflatlamp` to `not off` —
never `None`, so a dome-flat-off variant is distinguishable from a
science config — and annotates the name with "True"/"False"
accordingly. -/
theorem domeflats_sets_lamp_flag (c : MOSFIREConfig) (off : Bool) :
    (c.domeflats off).2.domeflatlamp = some (!off) ∧
    (c.domeflats off).2.domeflatlamp ≠ none ∧
    (c.domeflats false).2.domeflatlamp = some true ∧
    (c.domeflats true).2.domeflatlamp = some false ∧
    (c.domeflats false).2.name = c.name ++ " domeflatlamp=True" ∧
    (c.domeflats true).2.name = c.name ++ " domeflatlamp=False" := by
  have hT : (" domeflatlamp=" ++ "True" : String) = " domeflatlamp=True" := rfl
  have hF : (" domeflatlamp=" ++ "False" : String) = " domeflatlamp=False" := rfl
  simp [MOSFIREConfig.domeflats, deepcopy, pyBoolStr, str_append_assoc, hT, hF]

end ODL
